import Mathlib

/-!
Verification of the request-routing and handler layer of the address-book
microservice (`addrservice/app.py`).

The handlers are thin adapters between HTTP semantics and an external
storage collaborator (`AddressBookService`).  We embed each handler as a
pure Lean function.  External effects are made explicit:

* the outcome of `json.loads(request.body.decode('utf-8'))` is a value of
  type `Except Exc Json`, passed to the handler as the `bodyParse` argument;
* the collaborator's asynchronous methods are passed in as functions
  returning `Except Exc α` (Python exceptions become `Exc` values);
* each handler also returns the list of arguments it passed to the
  collaborator call, so that "the collaborator was (not) invoked" is
  observable in the model;
* log statements are returned as `LogLine` values.
-/

namespace AddrService

/-- A Python exception, restricted to the dynamic types the handlers
dispatch on.  `JSONDecodeError` is kept distinct from `ValueError` (in
Python it is a subclass) because the handlers catch it in an earlier
clause; `other` stands for every exception type not mentioned in any
`except` clause. -/
inductive Exc where
  | jsonDecodeError
  | typeError
  | keyError (msg : String)
  | valueError (msg : String)
  | other (msg : String)
deriving DecidableEq, Repr

/-- A JSON value (the decoded request or response body). -/
inductive Json where
  | null
  | bool (b : Bool)
  | num (n : Int)
  | str (s : String)
  | arr (elems : List Json)
  | obj (fields : List (String × Json))

/-- Top-level keys of a JSON object (in order); `[]` for non-objects. -/
def Json.keys : Json → List String
  | .obj fields => fields.map Prod.fst
  | _ => []

/-- Python dictionary subscription `d[k]`: `KeyError` when the key is
absent, `TypeError` when the value is not a dict. -/
def Json.getItem : Json → String → Except Exc Json
  | .obj fields, k =>
      match List.lookup k fields with
      | some v => .ok v
      | none => .error (.keyError k)
  | _, _ => .error .typeError

/-- Python truthiness of a JSON value (`if info['ready']`). -/
def Json.truthy : Json → Bool
  | .null => false
  | .bool b => b
  | .num n => n != 0
  | .str s => s != ""
  | .arr elems => !elems.isEmpty
  | .obj fields => !fields.isEmpty

/-- An HTTP response as assembled by a handler: status code, headers set
via `set_header`, and the body passed to `finish` (`none` = empty body). -/
structure Response where
  status : Nat
  headers : List (String × String)
  body : Option Json

/-- The outcome of running a handler method: a normal response, a raised
`tornado.web.HTTPError(code, reason)` (later rendered by `write_error`),
or an exception that no `except` clause catches (surfaced by the hosting
framework as a 500). -/
inductive Outcome where
  | resp (r : Response)
  | httpError (code : Nat) (reason : String)
  | uncaught (e : Exc)

/-- Severity of a log statement. -/
inductive LogLevel where
  | debug
  | info
  | warning
  | error
deriving DecidableEq, Repr

/-- One emitted log line. -/
structure LogLine where
  level : LogLevel
  msg : String
deriving DecidableEq, Repr

/-- `ADDRESSBOOK_ENTRY_URI_FORMAT_STR = r'/addressbook/\x7bid\x7d'`
(app.py line 20). -/
def ADDRESSBOOK_ENTRY_URI_FORMAT_STR : String := "/addressbook/\x7bid\x7d"

/-- `ADDRESSBOOK_ENTRY_URI_FORMAT_STR.format(id=id)` (app.py line 101):
Python `str.format` replaces the single placeholder of the literal
`/addressbook/\x7bid\x7d` with the value of `id`. -/
def formatEntryUri (id : String) : String := "/addressbook/" ++ id

/-- `BaseRequestHandler.prepare` (app.py lines 34-42): logs one
debug-level line `REQUEST: \x7bmethod\x7d \x7buri\x7d (\x7bip\x7d)`
before any verb-specific logic runs.  Returns the emitted log lines. -/
def BaseRequestHandler.prepare (method uri ip : String) : List LogLine :=
  [⟨.debug, "REQUEST: " ++ method ++ " " ++ uri ++ " (" ++ ip ++ ")"⟩]

/-- `DefaultRequestHandler.prepare` (app.py lines 69-72): overrides the
base `prepare` (without calling it, so nothing is logged) and raises
`HTTPError(self._status_code, reason=self._reason)`, where status code
and reason were fixed by `initialize` (lines 65-67).  Returns the emitted
log lines together with the outcome. -/
def DefaultRequestHandler.prepare (status_code : Nat) (message : String) :
    List LogLine × Outcome :=
  ([], .httpError status_code message)

/-- `BaseRequestHandler.write_error` (app.py lines 47-61): renders any
non-2xx outcome as a JSON envelope.  `serve_traceback` is the
application setting set from the `debug` flag (line 181); `exc_info` is
`some trace` when `write_error` received exception info (the formatted
traceback), `none` otherwise. -/
def BaseRequestHandler.write_error (method path : String) (status_code : Nat)
    (reason : String) (serve_traceback : Bool) (exc_info : Option String) :
    Response :=
  { status := status_code
    headers := [("Content-Type", "application/json; charset=UTF-8")]
    body := some (.obj (
      [("method", .str method),
       ("uri", .str path),
       ("code", .num status_code),
       ("message", .str reason)] ++
      (match serve_traceback, exc_info with
       | true, some trace => [("trace", .str trace)]
       | _, _ => []))) }

/-- `LivenessRequestHandler.get` (app.py lines 76-80): responds 200 with
body `dict(uptime=self.service.uptime_millis())`. -/
def LivenessRequestHandler.get (uptime_millis : Int) : Outcome :=
  .resp { status := 200
          headers := []
          body := some (.obj [("uptime", .num uptime_millis)]) }

/-- `ReadinessRequestHandler.get` (app.py lines 84-88): fetches the
status snapshot `info` from the collaborator, answers
`200 if info['ready'] else 503` with the snapshot as body. -/
def ReadinessRequestHandler.get (info : Json) : Outcome :=
  match info.getItem "ready" with
  | .error e => .uncaught e
  | .ok v => .resp { status := if v.truthy then 200 else 503
                     headers := []
                     body := some info }

/-- The `except` clauses of `AddressBookRequestHandler.post`
(app.py lines 105-108): `JSONDecodeError`/`TypeError` → 400 with reason
`Invalid JSON body`; `ValueError` → 400 with the exception's message;
everything else propagates uncaught. -/
def postExcept : Exc → Outcome
  | .jsonDecodeError => .httpError 400 "Invalid JSON body"
  | .typeError => .httpError 400 "Invalid JSON body"
  | .valueError msg => .httpError 400 msg
  | e => .uncaught e

/-- `AddressBookRequestHandler.post` (app.py lines 97-108).
`post_address` is the collaborator's create operation; `bodyParse` is the
outcome of `json.loads(self.request.body.decode('utf-8'))` (line 99).
The second component lists the arguments passed to `post_address`. -/
def AddressBookRequestHandler.post (post_address : Json → Except Exc String)
    (bodyParse : Except Exc Json) : Outcome × List Json :=
  match bodyParse with
  | .error e => (postExcept e, [])
  | .ok addr =>
      match post_address addr with
      | .error e => (postExcept e, [addr])
      | .ok id =>
          (.resp { status := 201
                   headers := [("Location", formatEntryUri id)]
                   body := none }, [addr])

/-- The `except` clauses of `AddressBookEntryRequestHandler.put`
(app.py lines 126-131): `JSONDecodeError`/`TypeError` → 400
`Invalid JSON body`; `KeyError` → 404 with the exception's message;
`ValueError` → 400 with the exception's message; everything else
propagates uncaught. -/
def putExcept : Exc → Outcome
  | .jsonDecodeError => .httpError 400 "Invalid JSON body"
  | .typeError => .httpError 400 "Invalid JSON body"
  | .keyError msg => .httpError 404 msg
  | .valueError msg => .httpError 400 msg
  | e => .uncaught e

/-- `AddressBookEntryRequestHandler.get` (app.py lines 112-118).
The second component lists the identifiers passed to `get_address`. -/
def AddressBookEntryRequestHandler.get (get_address : String → Except Exc Json)
    (id : String) : Outcome × List String :=
  match get_address id with
  | .ok addr => (.resp { status := 200, headers := [], body := some addr }, [id])
  | .error (.keyError msg) => (.httpError 404 msg, [id])
  | .error e => (.uncaught e, [id])

/-- `AddressBookEntryRequestHandler.put` (app.py lines 120-131).
The second component lists the `(identifier, entry)` arguments passed to
`put_address`. -/
def AddressBookEntryRequestHandler.put
    (put_address : String → Json → Except Exc Unit) (id : String)
    (bodyParse : Except Exc Json) : Outcome × List (String × Json) :=
  match bodyParse with
  | .error e => (putExcept e, [])
  | .ok addr =>
      match put_address id addr with
      | .error e => (putExcept e, [(id, addr)])
      | .ok _ => (.resp { status := 204, headers := [], body := none }, [(id, addr)])

/-- `AddressBookEntryRequestHandler.delete` (app.py lines 133-139).
The second component lists the identifiers passed to `delete_address`. -/
def AddressBookEntryRequestHandler.delete
    (delete_address : String → Except Exc Unit) (id : String) :
    Outcome × List String :=
  match delete_address id with
  | .ok _ => (.resp { status := 204, headers := [], body := none }, [id])
  | .error (.keyError msg) => (.httpError 404 msg, [id])
  | .error e => (.uncaught e, [id])

/-- `log_function` (app.py lines 142-161): the access-log hook run once
per completed request.  `time` is the decimal rendering of
`1000.0 * handler.request.request_time()` (line 144). -/
def log_function (status : Nat) (method uri ip time : String) : LogLine :=
  { level := if status < 400 then .info else if status < 500 then .warning else .error
    msg := "RESPOSE: " ++ toString status ++ " " ++ method ++ " " ++ uri ++
      " (" ++ ip ++ ") " ++ time ++ "ms" }

/-! Concrete collaborator instances, used to instantiate the theorems
below at evaluable inputs.  Each is one possible behaviour allowed by the
collaborator contract of the spec. -/

/-- A create operation that accepts every entry, assigning id `abc123`. -/
def svcPostOk : Json → Except Exc String := fun _ => .ok "abc123"

/-- A create operation that raises `TypeError` on every entry (as a
Python implementation does when it subscripts a non-dict argument). -/
def svcPostTypeErr : Json → Except Exc String := fun _ => .error .typeError

/-- An update operation that raises `TypeError` on every entry. -/
def svcPutTypeErr : String → Json → Except Exc Unit := fun _ _ => .error .typeError

/-- A read operation: `KeyError` on id `k`, a fixed entry otherwise. -/
def svcGetW : String → Except Exc Json := fun id =>
  if id = "k" then .error (.keyError "kmsg") else .ok (.obj [("name", .str "Ann")])

/-- An update operation: `KeyError` on id `k`, `ValueError` on id `v`,
success otherwise. -/
def svcPutW : String → Json → Except Exc Unit := fun id _ =>
  if id = "k" then .error (.keyError "kmsg")
  else if id = "v" then .error (.valueError "vmsg")
  else .ok ()

/-- A delete operation: `KeyError` on id `k`, success otherwise. -/
def svcDelW : String → Except Exc Unit := fun id =>
  if id = "k" then .error (.keyError "kmsg") else .ok ()

/-- Claim C1: for every POST /addressbook whose body parses as a JSON
value `addr` that the collaborator's `post_address` accepts returning
`id`, the response has status 201, a `Location` header equal to
`/addressbook/` with `id` appended verbatim, and an empty body. -/
theorem post_success_location (post_address : Json → Except Exc String)
    (addr : Json) (id : String) (h : post_address addr = .ok id) :
    AddressBookRequestHandler.post post_address (.ok addr) =
      (.resp { status := 201
               headers := [("Location", "/addressbook/" ++ id)]
               body := none }, [addr]) := by
  simp [AddressBookRequestHandler.post, h, formatEntryUri]

/-- Concrete instance of `post_success_location`: a collaborator that
assigns id `abc123` to the empty object. -/
theorem post_success_location_witness :
    AddressBookRequestHandler.post svcPostOk (.ok (.obj [])) =
      (.resp { status := 201
               headers := [("Location", "/addressbook/" ++ "abc123")]
               body := none }, [Json.obj []]) :=
  post_success_location svcPostOk (.obj []) "abc123" rfl

/-- Counterexample to claim C2: a body that decodes to the JSON array
`[]` — not an object — is forwarded to the collaborator (the call trace
is nonempty) and, with a collaborator that accepts it, the response is
201, not 400 `Invalid JSON body`. -/
theorem nonobject_body_reaches_collaborator :
    AddressBookRequestHandler.post svcPostOk (.ok (.arr [])) =
      (.resp { status := 201
               headers := [("Location", "/addressbook/abc123")]
               body := none }, [Json.arr []]) := rfl

/-- Claim C2 as amended: a body that fails to decode as JSON yields 400
`Invalid JSON body` on both POST and PUT without invoking the
collaborator; a body that decodes to a non-object value is passed to the
collaborator, and yields 400 `Invalid JSON body` only when that call
raises `TypeError` — the collaborator having been invoked. -/
theorem invalid_json_body_mapping
    (post_address : Json → Except Exc String)
    (put_address : String → Json → Except Exc Unit) (id : String) (addr : Json)
    (hpost : post_address addr = .error .typeError)
    (hput : put_address id addr = .error .typeError) :
    AddressBookRequestHandler.post post_address (.error .jsonDecodeError) =
      (.httpError 400 "Invalid JSON body", []) ∧
    AddressBookEntryRequestHandler.put put_address id (.error .jsonDecodeError) =
      (.httpError 400 "Invalid JSON body", []) ∧
    AddressBookRequestHandler.post post_address (.ok addr) =
      (.httpError 400 "Invalid JSON body", [addr]) ∧
    AddressBookEntryRequestHandler.put put_address id (.ok addr) =
      (.httpError 400 "Invalid JSON body", [(id, addr)]) := by
  refine ⟨rfl, rfl, ?_, ?_⟩ <;>
    simp [AddressBookRequestHandler.post, AddressBookEntryRequestHandler.put,
      hpost, hput, postExcept, putExcept]

/-- Concrete instance of `invalid_json_body_mapping`: a collaborator
that raises `TypeError` on the array body `[]`. -/
theorem invalid_json_body_mapping_witness :
    AddressBookRequestHandler.post svcPostTypeErr (.error .jsonDecodeError) =
      (.httpError 400 "Invalid JSON body", []) ∧
    AddressBookEntryRequestHandler.put svcPutTypeErr "x" (.error .jsonDecodeError) =
      (.httpError 400 "Invalid JSON body", []) ∧
    AddressBookRequestHandler.post svcPostTypeErr (.ok (.arr [])) =
      (.httpError 400 "Invalid JSON body", [Json.arr []]) ∧
    AddressBookEntryRequestHandler.put svcPutTypeErr "x" (.ok (.arr [])) =
      (.httpError 400 "Invalid JSON body", [("x", Json.arr [])]) :=
  invalid_json_body_mapping svcPostTypeErr svcPutTypeErr "x" (.arr []) rfl rfl

/-- Claim C3: on /addressbook/(id), GET maps a collaborator key-error to
404 with the collaborator's message and success to 200 with the entry
body; PUT (well-formed JSON body) maps key-error to 404, value-error to
400 with the collaborator's message, and success to 204 empty; DELETE
maps key-error to 404 and success to 204 empty. -/
theorem entry_handler_status_mapping
    (get_address : String → Except Exc Json)
    (put_address : String → Json → Except Exc Unit)
    (delete_address : String → Except Exc Unit)
    (idK idV idOk : String) (mK mV : String) (entry addr : Json)
    (hgK : get_address idK = .error (.keyError mK))
    (hgOk : get_address idOk = .ok entry)
    (hpK : put_address idK addr = .error (.keyError mK))
    (hpV : put_address idV addr = .error (.valueError mV))
    (hpOk : put_address idOk addr = .ok ())
    (hdK : delete_address idK = .error (.keyError mK))
    (hdOk : delete_address idOk = .ok ()) :
    AddressBookEntryRequestHandler.get get_address idK = (.httpError 404 mK, [idK]) ∧
    AddressBookEntryRequestHandler.get get_address idOk =
      (.resp { status := 200, headers := [], body := some entry }, [idOk]) ∧
    AddressBookEntryRequestHandler.put put_address idK (.ok addr) =
      (.httpError 404 mK, [(idK, addr)]) ∧
    AddressBookEntryRequestHandler.put put_address idV (.ok addr) =
      (.httpError 400 mV, [(idV, addr)]) ∧
    AddressBookEntryRequestHandler.put put_address idOk (.ok addr) =
      (.resp { status := 204, headers := [], body := none }, [(idOk, addr)]) ∧
    AddressBookEntryRequestHandler.delete delete_address idK =
      (.httpError 404 mK, [idK]) ∧
    AddressBookEntryRequestHandler.delete delete_address idOk =
      (.resp { status := 204, headers := [], body := none }, [idOk]) := by
  refine ⟨?_, ?_, ?_, ?_, ?_, ?_, ?_⟩ <;>
    simp [AddressBookEntryRequestHandler.get, AddressBookEntryRequestHandler.put,
      AddressBookEntryRequestHandler.delete, hgK, hgOk, hpK, hpV, hpOk, hdK, hdOk,
      putExcept]

/-- Concrete instance of `entry_handler_status_mapping` with a
collaborator that fails with key-error on id `k`, value-error on id `v`,
and succeeds on id `g`. -/
theorem entry_handler_status_mapping_witness :
    AddressBookEntryRequestHandler.get svcGetW "k" = (.httpError 404 "kmsg", ["k"]) ∧
    AddressBookEntryRequestHandler.get svcGetW "g" =
      (.resp { status := 200, headers := []
               body := some (.obj [("name", .str "Ann")]) }, ["g"]) ∧
    AddressBookEntryRequestHandler.put svcPutW "k" (.ok (.obj [])) =
      (.httpError 404 "kmsg", [("k", Json.obj [])]) ∧
    AddressBookEntryRequestHandler.put svcPutW "v" (.ok (.obj [])) =
      (.httpError 400 "vmsg", [("v", Json.obj [])]) ∧
    AddressBookEntryRequestHandler.put svcPutW "g" (.ok (.obj [])) =
      (.resp { status := 204, headers := [], body := none }, [("g", Json.obj [])]) ∧
    AddressBookEntryRequestHandler.delete svcDelW "k" = (.httpError 404 "kmsg", ["k"]) ∧
    AddressBookEntryRequestHandler.delete svcDelW "g" =
      (.resp { status := 204, headers := [], body := none }, ["g"]) :=
  entry_handler_status_mapping svcGetW svcPutW svcDelW "k" "v" "g" "kmsg" "vmsg"
    (.obj [("name", .str "Ann")]) (.obj []) rfl rfl rfl rfl rfl rfl rfl

/-- Counterexample to claim C4: with the collaborator reporting 5
milliseconds of uptime, GET /healthz responds 200 but its body is the
object whose only key is `uptime` — there is no `uptime_millis` key. -/
theorem healthz_key_is_uptime :
    LivenessRequestHandler.get 5 =
      .resp { status := 200, headers := []
              body := some (.obj [("uptime", .num 5)]) } ∧
    Json.keys (.obj [("uptime", .num 5)]) = ["uptime"] :=
  ⟨rfl, rfl⟩

/-- Claim C4 as amended: for every GET /healthz, the response has status
200 and a JSON-object body whose single key is `uptime` (not
`uptime_millis`), holding the integer milliseconds reported by the
collaborator's `uptime_millis()`; there is no failure path. -/
theorem healthz_ok (uptime_millis : Int) :
    LivenessRequestHandler.get uptime_millis =
      .resp { status := 200, headers := []
              body := some (.obj [("uptime", .num uptime_millis)]) } := rfl

/-- Claim C5: GET /readiness responds 503 exactly when the snapshot's
`ready` field is `false`, 200 otherwise, and the body is the snapshot
unmodified. -/
theorem readiness_status_mapping (info : Json) (b : Bool)
    (h : info.getItem "ready" = .ok (.bool b)) :
    ReadinessRequestHandler.get info =
      .resp { status := if b = false then 503 else 200
              headers := []
              body := some info } := by
  simp [ReadinessRequestHandler.get, h, Json.truthy]
  cases b <;> simp

/-- Concrete instances of `readiness_status_mapping`: a not-ready
snapshot (with an extra field) gets 503, a ready snapshot gets 200, and
both bodies are the snapshots themselves. -/
theorem readiness_status_mapping_witness :
    ReadinessRequestHandler.get
        (.obj [("ready", .bool false), ("detail", .str "warming up")]) =
      .resp { status := 503, headers := []
              body := some (.obj [("ready", .bool false), ("detail", .str "warming up")]) } ∧
    ReadinessRequestHandler.get (.obj [("ready", .bool true)]) =
      .resp { status := 200, headers := []
              body := some (.obj [("ready", .bool true)]) } :=
  ⟨readiness_status_mapping _ false rfl, readiness_status_mapping _ true rfl⟩

/-- Claim C6: every error-path response carries
`Content-Type: application/json; charset=UTF-8` and a JSON-object body
with exactly the keys `method`, `uri`, `code`, `message` — `code` equal
to the response status — plus a `trace` key exactly when the debug
(`serve_traceback`) setting is on and exception info was supplied, hence
`trace` is present only when the debug flag is enabled. -/
theorem error_envelope_shape (method path : String) (status_code : Nat)
    (reason : String) (serve_traceback : Bool) (exc_info : Option String) :
    ∃ body,
      (BaseRequestHandler.write_error method path status_code reason
        serve_traceback exc_info).body = some body ∧
      (BaseRequestHandler.write_error method path status_code reason
        serve_traceback exc_info).status = status_code ∧
      (BaseRequestHandler.write_error method path status_code reason
        serve_traceback exc_info).headers =
        [("Content-Type", "application/json; charset=UTF-8")] ∧
      body.keys = ["method", "uri", "code", "message"] ++
        (if serve_traceback && exc_info.isSome then ["trace"] else []) ∧
      body.getItem "method" = .ok (.str method) ∧
      body.getItem "uri" = .ok (.str path) ∧
      body.getItem "code" = .ok (.num status_code) ∧
      body.getItem "message" = .ok (.str reason) := by
  cases serve_traceback <;> cases exc_info <;>
    exact ⟨_, rfl, rfl, rfl, rfl, rfl, rfl, rfl, rfl⟩

/-- Claim C7 evaluated on the code: the access logger chooses severity
info / warning / error by status code as claimed, but the line it emits
begins `RESPOSE:`, not `RESPONSE:`. -/
theorem access_log_line_eval :
    log_function 200 "GET" "/healthz" "127.0.0.1" "1.5" =
      { level := .info, msg := "RESPOSE: 200 GET /healthz (127.0.0.1) 1.5ms" } ∧
    log_function 404 "GET" "/nope" "127.0.0.1" "0.3" =
      { level := .warning, msg := "RESPOSE: 404 GET /nope (127.0.0.1) 0.3ms" } ∧
    log_function 500 "POST" "/addressbook" "127.0.0.1" "2.0" =
      { level := .error, msg := "RESPOSE: 500 POST /addressbook (127.0.0.1) 2.0ms" } :=
  ⟨rfl, rfl, rfl⟩

/-- Counterexample to claim C8: the default (unmatched-route) handler's
`prepare` raises the configured 404 without emitting any log line — in
particular no debug line with method, URI and caller IP. -/
theorem default_handler_logs_nothing :
    DefaultRequestHandler.prepare 404 "Unknown Endpoint" =
      ([], .httpError 404 "Unknown Endpoint") := rfl

/-- Claim C8 as amended: handlers using the base `prepare` emit exactly
one debug-level line `REQUEST: (method) (uri) ((ip))` before any
verb-specific logic, but the default handler overrides `prepare` without
calling the base version, so unmatched-route requests produce no such
line — they only raise the configured status code and message. -/
theorem prepare_logging (method uri ip : String) (status_code : Nat)
    (message : String) :
    BaseRequestHandler.prepare method uri ip =
      [⟨.debug, "REQUEST: " ++ method ++ " " ++ uri ++ " (" ++ ip ++ ")"⟩] ∧
    DefaultRequestHandler.prepare status_code message =
      ([], .httpError status_code message) :=
  ⟨rfl, rfl⟩

/-- Claim C9: the entry handler passes the path identifier verbatim to
`get_address`, `put_address` and `delete_address` (the call trace is
exactly the untransformed identifier, whatever the collaborator
returns), and on POST the collaborator-assigned identifier is placed
verbatim into the Location path. -/
theorem identifier_passthrough
    (get_address : String → Except Exc Json)
    (put_address : String → Json → Except Exc Unit)
    (delete_address : String → Except Exc Unit)
    (post_address : Json → Except Exc String)
    (id : String) (addr : Json) (newId : String)
    (hpost : post_address addr = .ok newId) :
    (AddressBookEntryRequestHandler.get get_address id).2 = [id] ∧
    (AddressBookEntryRequestHandler.put put_address id (.ok addr)).2 = [(id, addr)] ∧
    (AddressBookEntryRequestHandler.delete delete_address id).2 = [id] ∧
    (AddressBookRequestHandler.post post_address (.ok addr)).1 =
      .resp { status := 201
              headers := [("Location", "/addressbook/" ++ newId)]
              body := none } := by
  refine ⟨?_, ?_, ?_, ?_⟩
  · unfold AddressBookEntryRequestHandler.get
    cases h : get_address id with
    | ok a => rfl
    | error e => cases e <;> rfl
  · unfold AddressBookEntryRequestHandler.put
    cases h : put_address id addr <;> simp [h]
  · unfold AddressBookEntryRequestHandler.delete
    cases h : delete_address id with
    | ok a => rfl
    | error e => cases e <;> rfl
  · simp [AddressBookRequestHandler.post, hpost, formatEntryUri]

/-- Concrete instance of `identifier_passthrough` at identifier `g` and
a collaborator assigning id `abc123` on create. -/
theorem identifier_passthrough_witness :
    (AddressBookEntryRequestHandler.get svcGetW "g").2 = ["g"] ∧
    (AddressBookEntryRequestHandler.put svcPutW "g" (.ok (.obj []))).2 =
      [("g", Json.obj [])] ∧
    (AddressBookEntryRequestHandler.delete svcDelW "g").2 = ["g"] ∧
    (AddressBookRequestHandler.post svcPostOk (.ok (.obj []))).1 =
      .resp { status := 201
              headers := [("Location", "/addressbook/" ++ "abc123")]
              body := none } :=
  identifier_passthrough svcGetW svcPutW svcDelW svcPostOk "g" (.obj []) "abc123" rfl

/-- Claim C10: for POST and PUT, body parsing happens before the
collaborator is called: whenever `json.loads` fails, the outcome is 400
`Invalid JSON body` — whatever the collaborator would have done — and
the call trace is empty, so no collaborator operation runs and stored
state is unchanged. -/
theorem body_parse_before_collaborator
    (post_address : Json → Except Exc String)
    (put_address : String → Json → Except Exc Unit) (id : String) :
    AddressBookRequestHandler.post post_address (.error .jsonDecodeError) =
      (.httpError 400 "Invalid JSON body", []) ∧
    AddressBookEntryRequestHandler.put put_address id (.error .jsonDecodeError) =
      (.httpError 400 "Invalid JSON body", []) :=
  ⟨rfl, rfl⟩

end AddrService
